import Mathlib

/-!
Shallow embedding of `src/homework.py` (SofiyaBochina/homework_bot).

The program is a single-file polling bot: `get_api_answer` fetches the
review API, `check_response` validates the parsed body, `parse_status`
formats a notification, `send_message` delivers it, and `main` drives the
while-loop with a catch-all `except Exception` handler that deduplicates
consecutive identical error notifications.

Python values that flow through the program (parsed JSON bodies, dict
fields) are modelled by the inductive `Value`; each `raise` site of the
source is a distinct constructor of `PyErr`, and `PyErr.pyMessage` gives
the exact text Python `str(exc)` would produce for it (for `KeyError`,
Python wraps the message in apostrophes).
-/

namespace HomeworkBot

/-- A Python value in the domain of this program: ints, strings, lists,
string-keyed dicts (modelled as association lists, first binding wins),
and `None`. -/
inductive Value where
  | int (n : Int)
  | str (s : String)
  | list (xs : List Value)
  | dict (entries : List (String × Value))
  | none

/-- First binding of `key` in an association list, like a Python dict probe. -/
def lookupKey (entries : List (String × Value)) (key : String) : Option Value :=
  match entries with
  | [] => Option.none
  | (k, v) :: rest => if k = key then Option.some v else lookupKey rest key

/-- Python `repr` of a value (strings quoted with apostrophes, as Python
prints them inside containers). -/
def pyRepr : Value → String
  | .int n => toString n
  | .str s => "\x27" ++ s ++ "\x27"
  | .none => "None"
  | .list xs => "[" ++ String.intercalate ", " (xs.attach.map (fun ⟨v, _⟩ => pyRepr v)) ++ "]"
  | .dict es => "\x7b" ++ String.intercalate ", "
      (es.attach.map (fun ⟨(k, v), _⟩ => "\x27" ++ k ++ "\x27: " ++ pyRepr v)) ++ "\x7d"
decreasing_by
  all_goals
    rename_i hmem
    have := List.sizeOf_lt_of_mem hmem
    simp at this ⊢
    omega

/-- Python `str` of a value: like `repr` but a top-level string prints raw
(this is what an f-string interpolation uses). -/
def pyStr : Value → String
  | .str s => s
  | v => pyRepr v

/-- Python type name, as it appears in TypeError/AttributeError texts. -/
def typeName : Value → String
  | .int _ => "int"
  | .str _ => "str"
  | .list _ => "list"
  | .dict _ => "dict"
  | .none => "NoneType"

/-- `ENDPOINT` from homework.py. -/
def ENDPOINT : String := "https://practicum.yandex.ru/api/user_api/homework_statuses/"

/-- `RETRY_TIME` from homework.py. -/
def RETRY_TIME : Nat := 600

/-- `HOMEWORK_STATUSES` from homework.py: the status-to-verdict lookup table. -/
def HOMEWORK_STATUSES : List (String × String) :=
  [("approved", "Работа проверена: ревьюеру всё понравилось. Ура!"),
   ("reviewing", "Работа взята на проверку ревьюером."),
   ("rejected", "Работа проверена: у ревьюера есть замечания.")]

/-- First binding of `key` in the verdict table. -/
def lookupVerdict (table : List (String × String)) (key : String) : Option String :=
  match table with
  | [] => Option.none
  | (k, v) :: rest => if k = key then Option.some v else lookupVerdict rest key

/-- Each exception the program can raise, one constructor per raise site of
homework.py (plus the built-in exceptions Python itself raises at the
subscript and index accesses). The spec kinds map onto these:
ServerUnreachable = serverUnreachable, BadStatus = badStatus,
MalformedBody = parsingFailed, MissingResponse = missingResponse,
SchemaViolation = subscriptKeyError / notListType / missingHomeworksKey /
notListTypeSecond, UpstreamReportedError = upstreamError / upstreamCode,
MissingField = missingHomeworkName / missingStatus,
UnknownStatus = unknownStatus, MissingCursorField = missingCurrentDate,
DeliveryUnavailable = telegramUnavailable. -/
inductive PyErr where
  /-- ServerError raised in get_api_answer when the transport call fails. -/
  | serverUnreachable
  /-- ServerError raised in get_api_answer when status_code is not 200. -/
  | badStatus (status_code : Nat)
  /-- ParsingError raised in get_api_answer when .json() fails. -/
  | parsingFailed
  /-- TelegramError re-raised in send_message when the delivery fails. -/
  | telegramUnavailable
  /-- ResponseError raised in check_response when response is None. -/
  | missingResponse
  /-- built-in KeyError raised by the subscript response["homeworks"]. -/
  | subscriptKeyError (key : String)
  /-- built-in TypeError raised by subscripting a non-dict with a string. -/
  | badSubscript (v : Value)
  /-- TypeError raised in check_response: response["homeworks"] not a list. -/
  | notListType (v : Value)
  /-- KeyError raised explicitly in check_response: homework is None. -/
  | missingHomeworksKey
  /-- second TypeError raised in check_response: homework not a list. -/
  | notListTypeSecond (v : Value)
  /-- ResponseError raised in check_response: an "error" key is present. -/
  | upstreamError (v : Value)
  /-- ResponseError raised in check_response: a "code" key is present. -/
  | upstreamCode (v : Value)
  /-- built-in AttributeError: .get called on a non-dict value. -/
  | noGetAttr (v : Value)
  /-- KeyError raised in parse_status: homework_name is None. -/
  | missingHomeworkName
  /-- KeyError raised in parse_status: status is None. -/
  | missingStatus
  /-- KeyError raised in parse_status: status outside HOMEWORK_STATUSES. -/
  | unknownStatus (v : Value)
  /-- KeyError raised in get_current_date: current_date is None. -/
  | missingCurrentDate
  /-- built-in IndexError raised by homework[0] on an empty list. -/
  | indexOutOfRange

/-- Python `str(exc)` for each exception. The message texts are those of the
raise sites in homework.py; for a KeyError, Python renders `str(exc)` as the
repr of its argument, wrapping the message in apostrophes. The two built-in
TypeError/AttributeError texts for unreachable value shapes follow CPython. -/
def PyErr.pyMessage : PyErr → String
  | .serverUnreachable =>
      "Не удалось получить ответа от API сервера.\nПереданный URL: " ++ ENDPOINT ++ "\n"
  | .badStatus c =>
      "Код ответа API не равен 200.\nПереданный URL: " ++ ENDPOINT
        ++ "\nКод ответа API: " ++ toString c
  | .parsingFailed => "Не удалось распарсить ответ сервера API."
  | .telegramUnavailable => "Сервер Телеграма недоступен."
  | .missingResponse => "Ответ API не был получен."
  | .subscriptKeyError k => "\x27" ++ k ++ "\x27"
  | .badSubscript v => "\x27" ++ typeName v ++ "\x27 object is not subscriptable"
  | .notListType v => "Ответ API отличается от ожидаемого: " ++ pyStr v
  | .missingHomeworksKey => "\x27Ответ API не содержит ключ \"homeworks\"\x27"
  | .notListTypeSecond v => "Ответ API отличается от ожидаемого: " ++ pyStr v
  | .upstreamError v =>
      "Обнаружена проблема при получении ответа от API сервера:\n" ++ pyStr v
  | .upstreamCode v =>
      "Обнаружена проблема при получении ответа от API сервера:\n" ++ pyStr v
  | .noGetAttr v => "\x27" ++ typeName v ++ "\x27 object has no attribute \x27get\x27"
  | .missingHomeworkName => "\x27Словарь не содержит ключ \"homework_name\".\x27"
  | .missingStatus => "\x27Словарь не содержит ключ \"status\".\x27"
  | .unknownStatus v => "\x27Статус проверки " ++ pyStr v ++ " неизвестен.\x27"
  | .missingCurrentDate => "\x27Ответ API не содержит ключ \"current_date\".\x27"
  | .indexOutOfRange => "list index out of range"

/-- The spec kind SchemaViolation: the homeworks field is absent or not
list-typed (the KeyError/TypeError sites of check_response). -/
def PyErr.isSchemaViolation : PyErr → Bool
  | .subscriptKeyError _ => true
  | .notListType _ => true
  | .missingHomeworksKey => true
  | .notListTypeSecond _ => true
  | _ => false

/-- The spec kind UpstreamReportedError: the response carries an "error" or
"code" field (the two later ResponseError sites of check_response). -/
def PyErr.isUpstreamReported : PyErr → Bool
  | .upstreamError _ => true
  | .upstreamCode _ => true
  | _ => false

/-- Python subscript `v[key]` with a string key: KeyError when the key is
absent from a dict, TypeError on non-dict values. -/
def Value.subscript (v : Value) (key : String) : Except PyErr Value :=
  match v with
  | .dict es =>
      match lookupKey es key with
      | Option.some x => .ok x
      | Option.none => .error (.subscriptKeyError key)
  | other => .error (.badSubscript other)

/-- Python `v.get(key)`: None when the key is absent; AttributeError on a
non-dict value. -/
def Value.pyGet (v : Value) (key : String) : Except PyErr Value :=
  match v with
  | .dict es => .ok ((lookupKey es key).getD .none)
  | other => .error (.noGetAttr other)

/-- `v.get(key)` on a value already known to be a dict (total version, used
where the source has already subscripted the same dict successfully). -/
def Value.dictGet (v : Value) (key : String) : Value :=
  match v with
  | .dict es => (lookupKey es key).getD .none
  | _ => .none

/-- Python `isinstance(v, list)`. -/
def Value.isList : Value → Bool
  | .list _ => true
  | _ => false

/-- Python `v == []` (`!=` is its negation: any non-list differs from the
empty list). -/
def Value.isEmptyList : Value → Bool
  | .list [] => true
  | _ => false

/-- Python `key in v.keys()` for a dict. -/
def Value.hasKey (v : Value) (key : String) : Bool :=
  match v with
  | .dict es => (lookupKey es key).isSome
  | _ => false

/-- Python `v[0]`. -/
def Value.index0 : Value → Except PyErr Value
  | .list [] => .error .indexOutOfRange
  | .list (x :: _) => .ok x
  | v => .error (.badSubscript v)

/-- The outcome of the one `requests.get` call a cycle performs:
either the transport fails, or a response arrives with a status code and a
body that either parses to a `Value` or fails to parse. -/
inductive HttpOutcome where
  | unreachable
  | response (status_code : Nat) (body : Option Value)

/-- `get_api_answer` from homework.py: build `params` from the cursor,
perform the GET, fail on transport failure, on a non-200 status, or on an
unparseable body, otherwise return the parsed body.

Modelled from the spec: the repository's `exceptions.py` module (imported by
homework.py but not present under src/) is assumed, per the spec's Fetcher
contract, to make `except ServerError` catch the transport failure of
`requests.get` and `except ParsingError` catch the parse failure of
`.json()`, so those failures surface as the ServerError/ParsingError
raised in the corresponding handlers. -/
def get_api_answer (http : HttpOutcome) (current_timestamp : Value) :
    Except PyErr Value :=
  let _params := [("from_date", current_timestamp)]
  match http with
  | .unreachable => .error .serverUnreachable
  | .response status_code body =>
      if status_code ≠ 200 then .error (.badStatus status_code)
      else
        match body with
        | Option.none => .error .parsingFailed
        | Option.some v => .ok v

/-- `send_message` from homework.py: deliver `message` to the fixed chat.

Modelled from the spec: per the Notifier contract, the missing
`exceptions.py` is assumed to make `except TelegramError` catch the
messaging client's delivery failure, which is re-raised as a TelegramError
with a fixed text. `delivery_ok` is the environment's answer to this one
delivery attempt. -/
def send_message (delivery_ok : Bool) (_message : String) : Except PyErr Unit :=
  if delivery_ok then .ok () else .error .telegramUnavailable

/-- `check_response` from homework.py, branch for branch: the None check,
the subscript `response["homeworks"]`, the isinstance check, then
`homework = response.get("homeworks")` with its own None/isinstance checks,
then the "error"/"code" probes, finally returning homework. -/
def check_response (response : Value) : Except PyErr Value :=
  match response with
  | .none => .error .missingResponse
  | response =>
      match response.subscript "homeworks" with
      | .error e => .error e
      | .ok hv =>
          if ¬ hv.isList then .error (.notListType hv)
          else
            match response.dictGet "homeworks" with
            | .none => .error .missingHomeworksKey
            | homework =>
                if ¬ homework.isList then .error (.notListTypeSecond homework)
                else if response.hasKey "error" then
                  .error (.upstreamError (response.dictGet "error"))
                else if response.hasKey "code" then
                  .error (.upstreamCode (response.dictGet "code"))
                else .ok homework

/-- Membership test `homework_status not in HOMEWORK_STATUSES.keys()`
together with the following table lookup: a non-string status is never a
key of the table. -/
def statusVerdict : Value → Option String
  | .str s => lookupVerdict HOMEWORK_STATUSES s
  | _ => Option.none

/-- `parse_status` from homework.py: fetch homework_name and status with
`.get`, fail if either is None, fail if the status is not in the table,
otherwise compose the notification text. -/
def parse_status (homework : Value) : Except PyErr String :=
  match homework.pyGet "homework_name" with
  | .error e => .error e
  | .ok homework_name =>
      match homework_name with
      | .none => .error .missingHomeworkName
      | homework_name =>
          match homework.pyGet "status" with
          | .error e => .error e
          | .ok homework_status =>
              match homework_status with
              | .none => .error .missingStatus
              | homework_status =>
                  match statusVerdict homework_status with
                  | Option.none => .error (.unknownStatus homework_status)
                  | Option.some verdict =>
                      .ok ("Изменился статус проверки работы \""
                            ++ pyStr homework_name ++ "\". " ++ verdict)

/-- `check_tokens` from homework.py: walk the three secrets in order,
return False on the first missing one, True otherwise. -/
def check_tokens (PRACTICUM_TOKEN TELEGRAM_TOKEN TELEGRAM_CHAT_ID :
    Option String) : Bool :=
  let secret_list := [("PRACTICUM_TOKEN", PRACTICUM_TOKEN),
                      ("TELEGRAM_TOKEN", TELEGRAM_TOKEN),
                      ("TELEGRAM_CHAT_ID", TELEGRAM_CHAT_ID)]
  secret_list.all (fun kv => kv.2.isSome)

/-- `get_current_date` from homework.py: `response.get("current_date")`,
KeyError when it is None. -/
def get_current_date (response : Value) : Except PyErr Value :=
  match response.pyGet "current_date" with
  | .error e => .error e
  | .ok current_date =>
      match current_date with
      | .none => .error .missingCurrentDate
      | current_date => .ok current_date

/-! ### The while loop of `main` -/

/-- The mutable locals of `main` that survive from one cycle to the next:
`current_timestamp` (assigned whatever Value get_current_date returns) and
`last_error` (a string once the first failing cycle has run, else None). -/
structure LoopState where
  current_timestamp : Value
  last_error : Option String

/-- One cycle's external world: the outcome of the single `requests.get`
call, and whether each of the (at most two) `bot.send_message` calls of the
cycle would succeed — `delivery_ok` answers the try-block send,
`error_delivery_ok` the send inside the except handler. -/
structure CycleEnv where
  http : HttpOutcome
  delivery_ok : Bool
  error_delivery_ok : Bool

/-- The try block of one cycle of `main`:
`response = get_api_answer(current_timestamp)`,
`homework = check_response(response)`, then if `homework != []` format the
first record and send it, then `current_timestamp = get_current_date(response)`.
Returns the raised exception or the new cursor, along with the messages the
try block delivered before finishing or failing (a delivery that itself
fails delivers nothing). -/
def cycle_try (env : CycleEnv) (current_timestamp : Value) :
    Except PyErr Value × List String :=
  match get_api_answer env.http current_timestamp with
  | .error e => (.error e, [])
  | .ok response =>
      match check_response response with
      | .error e => (.error e, [])
      | .ok homework =>
          let sendPhase : Except PyErr Unit × List String :=
            if homework.isEmptyList then (.ok (), [])
            else
              match homework.index0 with
              | .error e => (.error e, [])
              | .ok hw0 =>
                  match parse_status hw0 with
                  | .error e => (.error e, [])
                  | .ok message =>
                      match send_message env.delivery_ok message with
                      | .error e => (.error e, [])
                      | .ok _ => (.ok (), [message])
          match sendPhase with
          | (.error e, sent) => (.error e, sent)
          | (.ok _, sent) =>
              match get_current_date response with
              | .error e => (.error e, sent)
              | .ok ts => (.ok ts, sent)

/-- What one pass through the while-loop body produced. -/
structure CycleResult where
  state : LoopState
  /-- messages actually delivered through the messaging client, in order. -/
  sent : List String
  /-- texts passed to logger.error. -/
  logged_errors : List String
  /-- whether the body reached its time.sleep(RETRY_TIME). -/
  slept : Bool
  /-- an exception that escaped the loop body (and hence the while loop
  and `main`), when one did. -/
  escaped : Option PyErr

/-- One pass through the while-loop body of `main`. On a try-block success
the cursor is replaced and the body sleeps. On a caught exception the
handler builds `error_message`, compares it with `last_error`, logs and
sends it only when it differs, then assigns `last_error` and sleeps — but a
send_message failure inside the handler is not itself handled: it escapes
the loop before `last_error` and the sleep are reached. -/
def cycle (env : CycleEnv) (s : LoopState) : CycleResult :=
  match cycle_try env s.current_timestamp with
  | (.ok ts, sent) =>
      { state := { current_timestamp := ts, last_error := s.last_error },
        sent := sent, logged_errors := [], slept := true,
        escaped := Option.none }
  | (.error e, sent) =>
      let error_message := "Сбой в работе программы: " ++ e.pyMessage
      if Option.some error_message ≠ s.last_error then
        match send_message env.error_delivery_ok error_message with
        | .error te =>
            { state := s, sent := sent, logged_errors := [error_message],
              slept := false, escaped := Option.some te }
        | .ok _ =>
            { state := { current_timestamp := s.current_timestamp,
                         last_error := Option.some error_message },
              sent := sent ++ [error_message],
              logged_errors := [error_message], slept := true,
              escaped := Option.none }
      else
        { state := { current_timestamp := s.current_timestamp,
                     last_error := Option.some error_message },
          sent := sent, logged_errors := [], slept := true,
          escaped := Option.none }

/-- Run the while loop over a finite prefix of cycle environments,
accumulating deliveries; an escaping exception terminates the run (the
process crashes) and is reported. -/
def runLoop (s : LoopState) : List CycleEnv → LoopState × List String × Option PyErr
  | [] => (s, [], Option.none)
  | env :: rest =>
      let r := cycle env s
      match r.escaped with
      | Option.some e => (r.state, r.sent, Option.some e)
      | Option.none =>
          let (sEnd, sentRest, esc) := runLoop r.state rest
          (sEnd, r.sent ++ sentRest, esc)

/-- The three environment secrets `main` starts from. -/
structure Secrets where
  PRACTICUM_TOKEN : Option String
  TELEGRAM_TOKEN : Option String
  TELEGRAM_CHAT_ID : Option String

/-- The startup of `main` followed by the loop: homework.py calls
`check_tokens()` as a bare statement — the Boolean it returns is discarded
and execution falls through to the bot construction and the while loop
unconditionally, whatever the secrets were. `t0` is `int(time.time())`. -/
def main_run (sec : Secrets) (t0 : Int) (envs : List CycleEnv) :
    LoopState × List String × Option PyErr :=
  let _tokens_ok := check_tokens sec.PRACTICUM_TOKEN sec.TELEGRAM_TOKEN
      sec.TELEGRAM_CHAT_ID
  runLoop { current_timestamp := .int t0, last_error := Option.none } envs

/-- The text the except handler of `main` builds from the caught
exception: the f-string interpolating `str(error)`. -/
def error_text (e : PyErr) : String :=
  "Сбой в работе программы: " ++ e.pyMessage

/-! ### Theorems -/

/-- Claim C2: the claim asserts that missing startup secrets prevent the
program from entering the polling loop. The code detects the missing secret
(check_tokens returns false) but `main` discards that Boolean, so the run
of `main` is the same whatever the secrets are: the polling loop is entered
and behaves identically even with every secret absent. -/
theorem check_tokens_result_discarded :
    check_tokens Option.none (Option.some "T") (Option.some "C") = false ∧
    ∀ (sec sec2 : Secrets) (t0 : Int) (envs : List CycleEnv),
      main_run sec t0 envs = main_run sec2 t0 envs :=
  ⟨rfl, fun _ _ _ _ => rfl⟩

/-- Claim C1: the claim asserts that no exception escapes the while loop,
including one raised while sending the error notification itself. But the
except handler calls send_message unguarded: on a cycle whose fetch fails
and whose error-notification delivery also fails, the TelegramError escapes
the loop body (no sleep is reached) and terminates the run, so a later
cycle is never executed. -/
theorem error_notification_failure_escapes :
    (cycle { http := .unreachable, delivery_ok := true,
             error_delivery_ok := false }
        { current_timestamp := .int 0, last_error := Option.none }).escaped
      = Option.some .telegramUnavailable ∧
    (cycle { http := .unreachable, delivery_ok := true,
             error_delivery_ok := false }
        { current_timestamp := .int 0, last_error := Option.none }).slept
      = false ∧
    runLoop { current_timestamp := .int 0, last_error := Option.none }
        [{ http := .unreachable, delivery_ok := true,
           error_delivery_ok := false },
         { http := .response 200 (Option.some (.dict
             [("homeworks", .list []), ("current_date", .int 1)])),
           delivery_ok := true, error_delivery_ok := true }]
      = ({ current_timestamp := .int 0, last_error := Option.none }, [],
         Option.some .telegramUnavailable) :=
  ⟨rfl, rfl, rfl⟩

/-- Claim C3: classification of every fetch attempt — get_api_answer fails
as serverUnreachable exactly on a transport failure, as badStatus c exactly
on a response with status c ≠ 200, as parsingFailed exactly on a 200
response whose body does not parse, and otherwise returns the parsed
body. -/
theorem get_api_answer_classifies (http : HttpOutcome) (ts : Value) :
    (get_api_answer http ts = .error .serverUnreachable ↔
        http = .unreachable) ∧
    (∀ c, get_api_answer http ts = .error (.badStatus c) ↔
        c ≠ 200 ∧ ∃ body, http = .response c body) ∧
    (get_api_answer http ts = .error .parsingFailed ↔
        http = .response 200 Option.none) ∧
    (∀ v, get_api_answer http ts = .ok v ↔
        http = .response 200 (Option.some v)) := by
  refine ⟨?_, ?_, ?_, ?_⟩
  · cases http with
    | unreachable => simp [get_api_answer]
    | response c body =>
        by_cases hc : c = 200 <;> cases body <;> simp [get_api_answer, hc]
  · intro c2
    cases http with
    | unreachable => simp [get_api_answer]
    | response c body =>
        by_cases hc : c = 200 <;> cases body <;>
          simp [get_api_answer, hc] <;> omega
  · cases http with
    | unreachable => simp [get_api_answer]
    | response c body =>
        by_cases hc : c = 200 <;> cases body <;> simp [get_api_answer, hc]
  · intro v2
    cases http with
    | unreachable => simp [get_api_answer]
    | response c body =>
        by_cases hc : c = 200 <;> cases body <;> simp [get_api_answer, hc]

/-- Claim C4: a mapping without a homeworks key makes check_response fail
with the subscript KeyError, and a mapping whose homeworks value is not a
list makes it fail with the TypeError — both SchemaViolation kinds — no
matter which other fields the mapping carries. -/
theorem check_response_schema_violation (entries : List (String × Value)) :
    (lookupKey entries "homeworks" = Option.none →
      check_response (.dict entries)
          = .error (.subscriptKeyError "homeworks") ∧
        (PyErr.subscriptKeyError "homeworks").isSchemaViolation = true) ∧
    (∀ hv, lookupKey entries "homeworks" = Option.some hv →
      hv.isList = false →
      check_response (.dict entries) = .error (.notListType hv) ∧
        (PyErr.notListType hv).isSchemaViolation = true) := by
  constructor
  · intro h
    exact ⟨by simp [check_response, Value.subscript, h], rfl⟩
  · intro hv h hlist
    exact ⟨by simp [check_response, Value.subscript, h, hlist], rfl⟩

/-- Claim C4, witnessed at a mapping with only an unrelated field and at a
mapping whose homeworks value is an int. -/
theorem check_response_schema_violation_witness :
    check_response (.dict [("error", .str "x")])
        = .error (.subscriptKeyError "homeworks") ∧
    check_response (.dict [("homeworks", .int 5)])
        = .error (.notListType (.int 5)) :=
  ⟨((check_response_schema_violation [("error", .str "x")]).1 rfl).1,
   ((check_response_schema_violation [("homeworks", .int 5)]).2
      (.int 5) rfl rfl).1⟩

/-- Claim C9: the two later error branches of check_response — the explicit
KeyError for a missing homeworks key and the second TypeError for a
non-list homework — are dead: no input whatsoever makes check_response
return either of them, because the value re-read with .get is the same one
the subscript already proved to be a list. -/
theorem check_response_dead_branches (response : Value) :
    check_response response ≠ .error .missingHomeworksKey ∧
    ∀ v, check_response response ≠ .error (.notListTypeSecond v) := by
  cases response with
  | none => simp [check_response]
  | int n => simp [check_response, Value.subscript]
  | str s => simp [check_response, Value.subscript]
  | list xs => simp [check_response, Value.subscript]
  | dict entries =>
      cases hlk : lookupKey entries "homeworks" with
      | none => simp [check_response, Value.subscript, hlk]
      | some hv =>
          cases hv with
          | list xs =>
              by_cases he : (lookupKey entries "error").isSome <;>
                by_cases hcd : (lookupKey entries "code").isSome <;>
                simp [check_response, Value.subscript, hlk, Value.dictGet,
                  Value.isList, Value.hasKey, he, hcd]
          | int n =>
              simp [check_response, Value.subscript, hlk, Value.isList]
          | str s =>
              simp [check_response, Value.subscript, hlk, Value.isList]
          | dict es2 =>
              simp [check_response, Value.subscript, hlk, Value.isList]
          | none =>
              simp [check_response, Value.subscript, hlk, Value.isList]

/-- Claim C9, witnessed at a well-formed response: the validated list is
returned and neither dead branch fired. -/
theorem check_response_dead_branches_witness :
    check_response (.dict [("homeworks", .list [])])
        ≠ .error .missingHomeworksKey ∧
    check_response (.dict [("homeworks", .list [])])
        ≠ .error (.notListTypeSecond (.list [])) :=
  ⟨(check_response_dead_branches (.dict [("homeworks", .list [])])).1,
   (check_response_dead_branches (.dict [("homeworks", .list [])])).2
      (.list [])⟩

/-- Claim C8 counterexample: a mapping that carries an error field but no
homeworks key does not fail with an UpstreamReportedError kind — the
subscript KeyError (a SchemaViolation) fires first. -/
theorem upstream_without_homeworks_counterexample :
    check_response (.dict [("error", .str "boom")])
        = .error (.subscriptKeyError "homeworks") ∧
    (PyErr.subscriptKeyError "homeworks").isUpstreamReported = false :=
  ⟨rfl, rfl⟩

/-- Claim C8 as amended: for a mapping whose homeworks field is present and
list-typed, the presence of an error or code key makes check_response fail
with an UpstreamReportedError kind. -/
theorem check_response_upstream_reported (entries : List (String × Value))
    (hv : Value)
    (hlk : lookupKey entries "homeworks" = Option.some hv)
    (hlist : hv.isList = true)
    (herr : (lookupKey entries "error").isSome = true ∨
      (lookupKey entries "code").isSome = true) :
    ∃ e, check_response (.dict entries) = .error e ∧
      e.isUpstreamReported = true := by
  cases hv with
  | list xs =>
      by_cases he : (lookupKey entries "error").isSome
      · exact ⟨.upstreamError ((Value.dict entries).dictGet "error"),
          by simp [check_response, Value.subscript, hlk, Value.dictGet,
            Value.isList, Value.hasKey, he], rfl⟩
      · have hcd : (lookupKey entries "code").isSome = true := by
          rcases herr with h | h
          · exact absurd h he
          · exact h
        exact ⟨.upstreamCode ((Value.dict entries).dictGet "code"),
          by simp [check_response, Value.subscript, hlk, Value.dictGet,
            Value.isList, Value.hasKey, he, hcd], rfl⟩
  | int n => simp [Value.isList] at hlist
  | str s => simp [Value.isList] at hlist
  | dict es2 => simp [Value.isList] at hlist
  | none => simp [Value.isList] at hlist

/-- Claim C8 amended, witnessed at a well-formed homeworks list plus a code
field. -/
theorem check_response_upstream_reported_witness :
    ∃ e, check_response (.dict [("homeworks", .list []), ("code", .int 3)])
        = .error e ∧ e.isUpstreamReported = true :=
  check_response_upstream_reported [("homeworks", .list []), ("code", .int 3)]
    (.list []) rfl rfl (Or.inr rfl)

/-- Claim C5: for a record carrying a homework name and a status string in
the enumerated set, parse_status produces the composed notification — a
string containing both the name and the exact verdict the table maps that
status to — and for a status string outside the set it fails with the
UnknownStatus KeyError. -/
theorem parse_status_verdicts (entries : List (String × Value))
    (name : Value) (s : String)
    (hname : lookupKey entries "homework_name" = Option.some name)
    (hnN : name ≠ Value.none)
    (hstat : lookupKey entries "status" = Option.some (.str s)) :
    ((s = "approved" ∨ s = "reviewing" ∨ s = "rejected") →
      ∃ verdict, lookupVerdict HOMEWORK_STATUSES s = Option.some verdict ∧
        parse_status (.dict entries)
          = .ok ("Изменился статус проверки работы \"" ++ pyStr name
              ++ "\". " ++ verdict) ∧
        (∃ a b, "Изменился статус проверки работы \"" ++ pyStr name
            ++ "\". " ++ verdict = a ++ pyStr name ++ b) ∧
        (∃ a b, "Изменился статус проверки работы \"" ++ pyStr name
            ++ "\". " ++ verdict = a ++ verdict ++ b)) ∧
    (¬(s = "approved" ∨ s = "reviewing" ∨ s = "rejected") →
      parse_status (.dict entries) = .error (.unknownStatus (.str s))) := by
  have hpg : parse_status (.dict entries)
      = (match lookupVerdict HOMEWORK_STATUSES s with
         | Option.none => .error (.unknownStatus (.str s))
         | Option.some verdict =>
            .ok ("Изменился статус проверки работы \"" ++ pyStr name
                  ++ "\". " ++ verdict)) := by
    cases name with
    | none => exact absurd rfl hnN
    | int n => simp [parse_status, Value.pyGet, hname, hstat, statusVerdict]
    | str s2 => simp [parse_status, Value.pyGet, hname, hstat, statusVerdict]
    | list xs => simp [parse_status, Value.pyGet, hname, hstat, statusVerdict]
    | dict es => simp [parse_status, Value.pyGet, hname, hstat, statusVerdict]
  constructor
  · rintro (rfl | rfl | rfl) <;>
      exact ⟨_, rfl, by rw [hpg]; rfl, ⟨_, _, String.append_assoc _ _ _⟩,
        ⟨_, "", (String.append_empty _).symm⟩⟩
  · intro hmem
    have h1 : ¬("approved" = s) := fun h => hmem (Or.inl h.symm)
    have h2 : ¬("reviewing" = s) := fun h => hmem (Or.inr (Or.inl h.symm))
    have h3 : ¬("rejected" = s) := fun h => hmem (Or.inr (Or.inr h.symm))
    have hlv : lookupVerdict HOMEWORK_STATUSES s = Option.none := by
      simp [lookupVerdict, HOMEWORK_STATUSES, h1, h2, h3]
    rw [hpg, hlv]

/-- Claim C5, witnessed at the spec's end-to-end record (name proj1, status
approved, yielding the exact notification text) and at an unknown
status. -/
theorem parse_status_verdicts_witness :
    parse_status (.dict [("homework_name", .str "proj1"),
        ("status", .str "approved")])
      = .ok "Изменился статус проверки работы \"proj1\". Работа проверена: ревьюеру всё понравилось. Ура!" ∧
    parse_status (.dict [("homework_name", .str "p"),
        ("status", .str "weird")])
      = .error (.unknownStatus (.str "weird")) := by
  constructor
  · obtain ⟨verdict, hv, heq, -, -⟩ :=
      (parse_status_verdicts
        [("homework_name", .str "proj1"), ("status", .str "approved")]
        (.str "proj1") "approved" rfl (fun h => Value.noConfusion h)
        rfl).1 (Or.inl rfl)
    have hv2 : verdict = "Работа проверена: ревьюеру всё понравилось. Ура!" := by
      simpa [lookupVerdict, HOMEWORK_STATUSES] using hv.symm
    rw [hv2] at heq
    exact heq
  · exact (parse_status_verdicts
      [("homework_name", .str "p"), ("status", .str "weird")]
      (.str "p") "weird" rfl (fun h => Value.noConfusion h) rfl).2
      (by rintro (h | h | h) <;> simp_all)

/-- Claim C7: a successful cycle whose validated homeworks list is empty
delivers no message, replaces the cursor with the response's current_date
value, keeps last_error as it was, and reaches its sleep. -/
theorem cycle_empty_homeworks (env : CycleEnv) (s : LoopState)
    (entries : List (String × Value)) (d : Value)
    (hhttp : env.http = .response 200 (Option.some (.dict entries)))
    (hcheck : check_response (.dict entries) = .ok (.list []))
    (hdate : lookupKey entries "current_date" = Option.some d)
    (hdN : d ≠ Value.none) :
    cycle env s
      = { state := { current_timestamp := d, last_error := s.last_error },
          sent := [], logged_errors := [], slept := true,
          escaped := Option.none } := by
  cases d with
  | none => exact absurd rfl hdN
  | int n =>
      simp [cycle, cycle_try, get_api_answer, hhttp, hcheck,
        Value.isEmptyList, get_current_date, Value.pyGet, hdate]
  | str s2 =>
      simp [cycle, cycle_try, get_api_answer, hhttp, hcheck,
        Value.isEmptyList, get_current_date, Value.pyGet, hdate]
  | list xs =>
      simp [cycle, cycle_try, get_api_answer, hhttp, hcheck,
        Value.isEmptyList, get_current_date, Value.pyGet, hdate]
  | dict es =>
      simp [cycle, cycle_try, get_api_answer, hhttp, hcheck,
        Value.isEmptyList, get_current_date, Value.pyGet, hdate]

/-- Claim C7, witnessed at the spec's scenario 3: an empty homeworks list
with current_date 2000 makes the cursor 2000 and sends nothing. -/
theorem cycle_empty_homeworks_witness :
    cycle { http := .response 200 (Option.some (.dict [("homeworks", .list []), ("current_date", .int 2000)])), delivery_ok := true, error_delivery_ok := true }
      { current_timestamp := .int 5, last_error := Option.none }
      = { state := { current_timestamp := .int 2000,
                     last_error := Option.none },
          sent := [], logged_errors := [], slept := true,
          escaped := Option.none } :=
  cycle_empty_homeworks _ _
    [("homeworks", .list []), ("current_date", .int 2000)] (.int 2000)
    rfl rfl rfl (fun h => Value.noConfusion h)

/-- Claim C10: a cycle that ends in the except handler — whatever exception
the try block raised — leaves the cursor exactly as it was at the start of
the cycle, so the next fetch would reuse the same from_date. -/
theorem cycle_error_keeps_cursor (env : CycleEnv) (s : LoopState)
    (e : PyErr) (sent0 : List String)
    (h : cycle_try env s.current_timestamp = (.error e, sent0)) :
    (cycle env s).state.current_timestamp = s.current_timestamp := by
  cases hd : env.error_delivery_ok <;>
    simp [cycle, h, send_message, hd] <;> split <;> simp

/-- Claim C10, witnessed at a cycle whose fetch hits an unreachable server:
the cursor still holds its starting value 7. -/
theorem cycle_error_keeps_cursor_witness :
    (cycle { http := .unreachable, delivery_ok := true, error_delivery_ok := true } { current_timestamp := .int 7, last_error := Option.none }).state.current_timestamp = Value.int 7 :=
  cycle_error_keeps_cursor
    { http := .unreachable, delivery_ok := true, error_delivery_ok := true }
    { current_timestamp := .int 7, last_error := Option.none }
    PyErr.serverUnreachable [] rfl

/-- Claim C6: across consecutive failing cycles (each failing before any
try-block delivery, with the error notification deliverable), a cycle whose
error message equals the recorded one delivers and logs nothing, so two
consecutive identical error messages yield exactly one delivery; a cycle
whose error message differs both logs and delivers it; and last_error is
set to the new message in both cases. -/
theorem error_dedup_consecutive (s : LoopState) (env1 env2 env3 : CycleEnv)
    (e1 e2 e3 : PyErr)
    (h1 : cycle_try env1 s.current_timestamp = (.error e1, []))
    (hd1 : env1.error_delivery_ok = true)
    (hnew : Option.some (error_text e1) ≠ s.last_error)
    (h2 : cycle_try env2 (cycle env1 s).state.current_timestamp
      = (.error e2, []))
    ( _hd2 : env2.error_delivery_ok = true)
    (hm2 : error_text e2 = error_text e1)
    (h3 : cycle_try env3
        (cycle env2 (cycle env1 s).state).state.current_timestamp
      = (.error e3, []))
    (hd3 : env3.error_delivery_ok = true)
    (hm3 : error_text e3 ≠ error_text e1) :
    (cycle env1 s).sent = [error_text e1] ∧
    (cycle env1 s).state.last_error = Option.some (error_text e1) ∧
    (cycle env2 (cycle env1 s).state).sent = [] ∧
    (cycle env2 (cycle env1 s).state).logged_errors = [] ∧
    (cycle env2 (cycle env1 s).state).state.last_error
      = Option.some (error_text e2) ∧
    (cycle env3 (cycle env2 (cycle env1 s).state).state).sent
      = [error_text e3] ∧
    (cycle env3 (cycle env2 (cycle env1 s).state).state).logged_errors
      = [error_text e3] ∧
    (cycle env3 (cycle env2 (cycle env1 s).state).state).state.last_error
      = Option.some (error_text e3) ∧
    (runLoop s [env1, env2, env3]).2.1 = [error_text e1, error_text e3] := by
  simp only [error_text] at hnew hm2 hm3
  have hc1 : cycle env1 s
      = { state := { current_timestamp := s.current_timestamp,
                     last_error := Option.some ("Сбой в работе программы: " ++ e1.pyMessage) },
          sent := ["Сбой в работе программы: " ++ e1.pyMessage],
          logged_errors := ["Сбой в работе программы: " ++ e1.pyMessage],
          slept := true, escaped := Option.none } := by
    simp [cycle, h1, send_message, hd1, hnew]
  rw [hc1] at h2
  dsimp only at h2
  have hc2 : cycle env2
      ({ current_timestamp := s.current_timestamp,
         last_error := Option.some ("Сбой в работе программы: " ++ e1.pyMessage) } : LoopState)
      = { state := { current_timestamp := s.current_timestamp,
                     last_error := Option.some ("Сбой в работе программы: " ++ e1.pyMessage) },
          sent := [], logged_errors := [], slept := true,
          escaped := Option.none } := by
    simp [cycle, h2, send_message, hm2]
  rw [hc1] at h3
  dsimp only at h3
  rw [hc2] at h3
  dsimp only at h3
  have hc3 : cycle env3
      ({ current_timestamp := s.current_timestamp,
         last_error := Option.some ("Сбой в работе программы: " ++ e1.pyMessage) } : LoopState)
      = { state := { current_timestamp := s.current_timestamp,
                     last_error := Option.some ("Сбой в работе программы: " ++ e3.pyMessage) },
          sent := ["Сбой в работе программы: " ++ e3.pyMessage],
          logged_errors := ["Сбой в работе программы: " ++ e3.pyMessage],
          slept := true, escaped := Option.none } := by
    simp [cycle, h3, send_message, hd3, hm3]
  refine ⟨?_, ?_, ?_, ?_, ?_, ?_, ?_, ?_, ?_⟩ <;>
    simp [runLoop, hc1, hc2, hc3, hm2, error_text]

set_option maxRecDepth 8000 in
/-- Claim C6, witnessed at the spec scenario 2 shape: two consecutive 503
cycles deliver one BadStatus failure message, then an unreachable-server
cycle delivers a new, different failure message. -/
theorem error_dedup_consecutive_witness :
    (runLoop { current_timestamp := .int 0, last_error := Option.none }
      [{ http := .response 503 (Option.some .none), delivery_ok := true, error_delivery_ok := true },
       { http := .response 503 (Option.some .none), delivery_ok := true, error_delivery_ok := true },
       { http := .unreachable, delivery_ok := true, error_delivery_ok := true }]).2.1
    = ["Сбой в работе программы: Код ответа API не равен 200.\nПереданный URL: https://practicum.yandex.ru/api/user_api/homework_statuses/\nКод ответа API: 503",
       "Сбой в работе программы: Не удалось получить ответа от API сервера.\nПереданный URL: https://practicum.yandex.ru/api/user_api/homework_statuses/\n"] := by
  have h := error_dedup_consecutive
    { current_timestamp := .int 0, last_error := Option.none }
    { http := .response 503 (Option.some .none), delivery_ok := true, error_delivery_ok := true }
    { http := .response 503 (Option.some .none), delivery_ok := true, error_delivery_ok := true }
    { http := .unreachable, delivery_ok := true, error_delivery_ok := true }
    (.badStatus 503) (.badStatus 503) .serverUnreachable
    rfl rfl (by simp) rfl rfl rfl rfl rfl (by decide)
  exact h.2.2.2.2.2.2.2.2

end HomeworkBot
